import Mathlib

/-
Verification development for the Tsundoku episode-acquisition pipeline.

The definitions below are a shallow embedding of the three source files
(feeds/poller.py, feeds/downloader.py, tsundoku/blueprints/api/init),
translated statement by statement.  External capabilities (the fuzzy
scorer, the Deluge RPC, the RSS fetch, the filesystem) are passed in as
explicit function or state parameters; database tables are lists of rows;
Python exceptions become Except values.
-/

namespace Tsundoku

/-! ## String and path helpers (embedding Python str and pathlib semantics) -/

/-- Character class of the regular-expression word class used by the
rename template scanner (ASCII letters, digits and underscore). -/
def isWordChar (c : Char) : Bool := c.isAlphanum || c = '_'

/-- Split a character list on a separator character, keeping empty chunks
(the behaviour of splitting a path string on the slash). -/
def splitChar (sep : Char) : List Char → List (List Char)
  | [] => [[]]
  | c :: cs =>
    let r := splitChar sep cs
    if c = sep then [] :: r
    else
      match r with
      | [] => [[c]]
      | w :: ws => (c :: w) :: ws

/-- A filesystem path, as its nonempty components (pathlib PurePath parts,
with the anchor dropped). -/
structure FilePath where
  parts : List String
deriving DecidableEq

/-- Parse a slash-separated path string into components, dropping empty
components (pathlib normalisation of repeated and trailing slashes). -/
def parsePath (s : String) : FilePath :=
  ⟨((splitChar '/' s.toList).map String.mk).filter (fun t => t ≠ "")⟩

/-- The pathlib slash operator: append a (possibly multi-component)
name to a path. -/
def pathJoin (p : FilePath) (name : String) : FilePath :=
  ⟨p.parts ++ ((splitChar '/' name.toList).map String.mk).filter (fun t => t ≠ "")⟩

/-- The final component of a path as a string (pathlib name),
empty for the empty path. -/
def baseName (p : FilePath) : String :=
  (p.parts.getLast?).getD ""

/-- pathlib with_name: replace the final component. -/
def with_name (p : FilePath) (name : String) : FilePath :=
  ⟨p.parts.dropLast ++ [name]⟩

/-- Index of the last dot in a character list, if any. -/
def lastIndexOfDot (l : List Char) : Option Nat :=
  (List.range l.length).foldl (fun acc i => if l.getD i ' ' = '.' then some i else acc) none

/-- pathlib suffix: the extension of the final component, including the
leading dot; empty when the name has no dot, starts with its only dot,
or ends with the dot. -/
def pathSuffix (p : FilePath) : String :=
  let name := baseName p
  match lastIndexOfDot name.toList with
  | some i => if 0 < i ∧ i < name.length - 1 then String.mk (name.toList.drop i) else ""
  | none => ""

/-- Python str.zfill: left-pad with zeros to the given width, keeping a
leading sign in front of the padding. -/
def zfill (s : String) (width : Nat) : String :=
  if width ≤ s.length then s
  else
    match s.toList with
    | '+' :: rest => String.mk ('+' :: (List.replicate (width - s.length) '0' ++ rest))
    | '-' :: rest => String.mk ('-' :: (List.replicate (width - s.length) '0' ++ rest))
    | l => String.mk (List.replicate (width - s.length) '0' ++ l)

/-- One left-to-right pass of re.sub with the template pattern of
handle_rename: at an opening brace followed by a nonempty run of word
characters and a closing brace, replace the whole group by the lookup of
the inner word; otherwise move one character forward.  The replacement
text is emitted without being rescanned, exactly as re.sub does.  The
fuel argument is an upper bound on the number of scanner steps; each
step consumes at least one input character, so fuel equal to the input
length is always sufficient. -/
def substFuel (lookup : String → String) : Nat → List Char → List Char
  | 0, l => l
  | _ + 1, [] => []
  | fuel + 1, '{' :: rest =>
    let w := rest.takeWhile isWordChar
    let rest2 := rest.dropWhile isWordChar
    match rest2 with
    | '}' :: rest3 =>
      if w ≠ [] then (lookup (String.mk w)).toList ++ substFuel lookup fuel rest3
      else '{' :: substFuel lookup fuel rest
    | _ => '{' :: substFuel lookup fuel rest
  | fuel + 1, c :: rest => c :: substFuel lookup fuel rest

/-- re.sub of the template placeholder pattern over a whole string. -/
def re_sub (lookup : String → String) (s : String) : String :=
  String.mk (substFuel lookup s.toList.length s.toList)

/-- Whether the first list is an initial segment of the second. -/
def startsWithList : List Char → List Char → Bool
  | [], _ => true
  | _ :: _, [] => false
  | a :: as, b :: bs => a = b && startsWithList as bs

/-- Naive substring search over character lists. -/
def hasSubList (needle : List Char) : List Char → Bool
  | [] => startsWithList needle []
  | c :: cs => startsWithList needle (c :: cs) || hasSubList needle cs

/-- Whether the first string occurs as a contiguous substring of the second. -/
def hasSubstring (needle hay : String) : Bool :=
  hasSubList needle.toList hay.toList

/-! ## Data model

The database schema file is not part of the provided sources; the row
shapes follow the SQL statements in the source, and the column default
for the entry state is modelled from the spec. -/

/-- A row of the shows table, with the columns the source selects:
id, search_title, desired_format, desired_folder, season, episode_offset. -/
structure ShowRow where
  id : Int
  search_title : String
  desired_format : Option String
  desired_folder : Option String
  season : Int
  episode_offset : Int
deriving DecidableEq

/-- A row of the show_entry table: id, show_id, episode, torrent_hash,
current_state.  Modelled from the spec: the schema is not under the
provided sources; per the spec a Show Entry is created with
current_state equal to the string for the downloading state, which the
source INSERT leaves to the column default. -/
structure ShowEntry where
  id : Int
  show_id : Int
  episode : Int
  torrent_hash : String
  current_state : String
deriving DecidableEq

/-- The two tables the pipeline touches. -/
structure DB where
  shows : List ShowRow
  show_entry : List ShowEntry
deriving DecidableEq

/-- The status record Deluge reports for a known torrent hash:
its save path and display name. -/
structure TorrentInfo where
  save_path : String
  name : String
deriving DecidableEq

/-- Filesystem state: the set of directories and the set of regular
files, each identified by its component list. -/
structure FS where
  dirs : List (List String)
  files : List (List String)
deriving DecidableEq

/-- pathlib is_dir against the modelled filesystem. -/
def FS.is_dir (fs : FS) (p : FilePath) : Bool :=
  fs.dirs.contains p.parts

/-- pathlib is_file against the modelled filesystem. -/
def FS.is_file (fs : FS) (p : FilePath) : Bool :=
  fs.files.contains p.parts

/-- os.rename: the old path stops existing as a file and the new path
starts existing as a file. -/
def os_rename (fs : FS) (old new : FilePath) : FS :=
  { fs with files := new.parts :: fs.files.erase old.parts }

/-- The exceptions module of the feeds package, plus the TypeError that
subscripting a missing joined show row would raise. -/
inductive DownloadError where
  | EntryNotInDeluge (message : String)
  | SavePathDoesNotExist (message : String)
  | MissingShowRow (show_id : Int)
deriving DecidableEq

/-! ## Downloader (feeds/downloader.py)

The Downloader methods become functions over the explicit collaborator
state: add_torrent and get_torrent stand for the Deluge RPC, the DB
record holds the two tables, and FS the filesystem. -/

/-- Downloader.begin_handling: submit the magnet URL to Deluge for the
returned torrent hash, then INSERT a show_entry row with that
(show_id, episode, torrent_hash).  The INSERT names no id and no
current_state; the serial id is supplied by the caller here, and the
state column default is modelled from the spec: a Show Entry is created
in the downloading state. -/
def begin_handling (add_torrent : String → String) (next_id : Int) (db : DB)
    (show_id : Int) (episode : Int) (magnet_url : String) : DB :=
  let torrent_hash := add_torrent magnet_url
  { db with show_entry := db.show_entry ++ [⟨next_id, show_id, episode, torrent_hash, "downloading"⟩] }

/-- Downloader.get_file_path: the source overwrites the file_location
argument with a hard-coded directory string, converts backslashes to
slashes, raises SavePathDoesNotExist when that directory cannot be
read, and otherwise joins the file name onto it. -/
def get_file_path (fs : FS) (file_location : String) (file_name : String) :
    Except DownloadError FilePath :=
  let file_location := "C:\\Users\\Tyler\\Documents\\GitHub\\Tsundoku\\test\\"
  let file_location := String.mk (file_location.toList.map (fun c => if c = '\\' then '/' else c))
  let location := parsePath file_location
  if fs.is_dir location = false then
    Except.error (DownloadError.SavePathDoesNotExist ("'" ++ file_location ++ "' could not be read"))
  else
    Except.ok (pathJoin location file_name)

/-- The replacement function formatting_re that handle_rename passes to
re.sub: season is the show's season as a string, episode is the entry's
episode plus the show's episode_offset as a string, and the recognized
placeholder words map through the format_exprs table; any other word
maps to itself (dict.get default). -/
def formatting_re (show_info : ShowRow) (entry : ShowEntry) (expression : String) : String :=
  let season := toString show_info.season
  let episode := toString (entry.episode + show_info.episode_offset)
  if expression = "n" then show_info.search_title
  else if expression = "s" then season
  else if expression = "e" then episode
  else if expression = "s00" then zfill season 2
  else if expression = "e00" then zfill episode 2
  else if expression = "s00e00" then "S" ++ zfill season 2 ++ "E" ++ zfill episode 2
  else if expression = "sxe" then season ++ "x" ++ zfill episode 2
  else expression

/-- Downloader.handle_rename: take the suffix of the current path, fetch
the owning show row (subscripting a missing row is the MissingShowRow
fault), choose desired_format when it is truthy and the default
template otherwise, substitute the template, rename the file in place
to the substituted name plus the original suffix, and return the new
path. -/
def handle_rename (db : DB) (fs : FS) (entry : ShowEntry) (path : FilePath) :
    Except DownloadError (FS × FilePath) :=
  let suffix := pathSuffix path
  match db.shows.find? (fun s => s.id == entry.show_id) with
  | none => Except.error (DownloadError.MissingShowRow entry.show_id)
  | some show_info =>
    let file_fmt :=
      match show_info.desired_format with
      | some f => if f ≠ "" then f else "{n} - {s00e00}"
      | none => "{n} - {s00e00}"
    let name := re_sub (formatting_re show_info entry) file_fmt
    let new_path := with_name path (name ++ suffix)
    Except.ok (os_rename fs path new_path, new_path)

/-- Downloader.check_show_entry: query Deluge by the entry's torrent
hash; an unknown hash (the IndexError branch) is re-raised as
EntryNotInDeluge naming the entry's show id and episode.  Otherwise
compute the file path from the reported save path and name; when the
path is not a regular file, return leaving every state unchanged;
when it is, hand the entry to handle_rename.  No table is updated in
any branch. -/
def check_show_entry (get_torrent : String → Option TorrentInfo) (db : DB) (fs : FS)
    (entry : ShowEntry) : Except DownloadError (DB × FS) :=
  match get_torrent entry.torrent_hash with
  | none =>
    Except.error (DownloadError.EntryNotInDeluge
      ("Show Entry with ID " ++ toString entry.show_id ++ " Episode " ++
        toString entry.episode ++ " missing from Deluge."))
  | some deluge_info =>
    match get_file_path fs deluge_info.save_path deluge_info.name with
    | Except.error e => Except.error e
    | Except.ok path =>
      if fs.is_file path = false then Except.ok (db, fs)
      else
        match handle_rename db fs entry path with
        | Except.error e => Except.error e
        | Except.ok (fs2, _new_path) => Except.ok (db, fs2)

/-- The sequential for-loop of check_show_entries over the selected
rows; a raised exception aborts the remaining iterations. -/
def run_entries (get_torrent : String → Option TorrentInfo) :
    List ShowEntry → DB → FS → Except DownloadError (DB × FS)
  | [], db, fs => Except.ok (db, fs)
  | e :: rest, db, fs =>
    match check_show_entry get_torrent db fs e with
    | Except.error err => Except.error err
    | Except.ok (db2, fs2) => run_entries get_torrent rest db2 fs2

/-- Downloader.check_show_entries: one watcher cycle.  SELECT the
entries whose current_state is downloading and check each in turn. -/
def check_show_entries (get_torrent : String → Option TorrentInfo) (db : DB) (fs : FS) :
    Except DownloadError (DB × FS) :=
  run_entries get_torrent (db.show_entry.filter (fun e => e.current_state == "downloading")) db fs

/-! ## Feed Poller (feeds/poller.py)

The installed RSS feed handlers become Descriptor values whose optional
fields model the hasattr checks of the source; the fuzzywuzzy scorer,
the Deluge magnet conversion and the network fetch are explicit
function parameters. -/

/-- One item of a parsed RSS feed: its raw title and link. -/
structure FeedItem where
  title : String
  link : String
deriving DecidableEq

/-- A parsed RSS feed: its list of items. -/
structure Feed where
  items : List FeedItem
deriving DecidableEq

/-- One installed RSS feed handler object.  The optional fields are the
hooks the source probes with hasattr (ignore_logic, get_file_name,
get_link_location); get_show_name and get_episode_number are the
mandatory capabilities every handler supplies. -/
structure Descriptor where
  url : String
  ignore_logic : Option (FeedItem → Bool)
  get_file_name : Option (FeedItem → String)
  get_show_name : String → String
  get_episode_number : String → Int
  get_link_location : Option (FeedItem → String)

/-- fuzzywuzzy process.extractOne, parameterized by the external
similarity scorer: the choice with the highest score, earliest
occurrence winning ties, with its score; none only on an empty choice
list. -/
def extractOne (scorer : String → String → Nat) (query : String) :
    List String → Option (String × Nat)
  | [] => none
  | choice :: rest =>
    match extractOne scorer query rest with
    | none => some (choice, scorer query choice)
    | some (best, bestScore) =>
      if scorer query choice ≥ bestScore then some (choice, scorer query choice)
      else some (best, bestScore)

/-- Poller.check_item_for_match: SELECT every search_title from the
shows table; on an empty list return none at once; otherwise take
extractOne's best match and return it exactly when its score is at
least 90.  The episode parameter is accepted and, as in the source,
never read; no query against the show_entry table occurs. -/
def check_item_for_match (scorer : String → String → Nat) (db : DB)
    (show_name : String) (episode : Int) : Option String :=
  let show_list := db.shows.map (fun s => s.search_title)
  if show_list = [] then none
  else
    match extractOne scorer show_name show_list with
    | none => none
    | some m => if m.2 ≥ 90 then some m.1 else none

/-- Poller.check_item: drop the item when the handler has ignore_logic
and it returns false; derive the torrent name through get_file_name or
the raw title; derive the show name and episode; ask
check_item_for_match; on a match resolve the torrent URL through
get_link_location plus the Deluge magnet conversion, or the raw link;
then print the show name and episode.  The returned pair is the
database (unchanged on every control path — the source initiates no
download) together with the lines printed. -/
def check_item (scorer : String → String → Nat) (get_magnet : String → String)
    (d : Descriptor) (db : DB) (item : FeedItem) : DB × List String :=
  let ignored : Bool :=
    match d.ignore_logic with
    | some f => f item == false
    | none => false
  if ignored then (db, [])
  else
    let torrent_name :=
      match d.get_file_name with
      | some f => f item
      | none => item.title
    let show_name := d.get_show_name torrent_name
    let show_episode := d.get_episode_number torrent_name
    match check_item_for_match scorer db show_name show_episode with
    | none => (db, [])
    | some _ =>
      let _torrent_url :=
        match d.get_link_location with
        | some f => get_magnet (f item)
        | none => item.link
      (db, [show_name ++ " " ++ toString show_episode])

/-- The sequential for-loop of check_feed over the feed's items,
accumulating the printed output. -/
def run_items (scorer : String → String → Nat) (get_magnet : String → String)
    (d : Descriptor) : List FeedItem → DB → List String → DB × List String
  | [], db, log => (db, log)
  | item :: rest, db, log =>
    let r := check_item scorer get_magnet d db item
    run_items scorer get_magnet d rest r.1 (log ++ r.2)

/-- Poller.check_feed: check every item of a fetched feed in order. -/
def check_feed (scorer : String → String → Nat) (get_magnet : String → String)
    (d : Descriptor) (db : DB) (feed : Feed) : DB × List String :=
  run_items scorer get_magnet d feed.items db []

/-- A fault raised while fetching one feed source. -/
inductive PollFault where
  | fetchFailure (url : String)
deriving DecidableEq

/-- One iteration of the for-loop in Poller.start: for each handler in
order, fetch its feed and check it.  The source wraps neither the fetch
nor the check in any exception handling, so a fault raised for one
handler propagates and the remaining handlers of the cycle are never
reached. -/
def poll_cycle (fetch : Descriptor → Except PollFault Feed)
    (scorer : String → String → Nat) (get_magnet : String → String) :
    List Descriptor → DB → List String → Except PollFault (DB × List String)
  | [], db, log => Except.ok (db, log)
  | d :: rest, db, log =>
    match fetch d with
    | Except.error e => Except.error e
    | Except.ok feed =>
      let r := check_feed scorer get_magnet d db feed
      poll_cycle fetch scorer get_magnet rest r.1 (log ++ r.2)

/-! ## Administrative API (tsundoku/blueprints/api)

A route handler returning a bare string is a 200 response with that
body; the JSON encoder mirrors json.dumps with its default separators
for the ASCII payloads these rows carry. -/

/-- A synchronous HTTP response: body and status code. -/
structure ApiResponse where
  body : String
  status : Nat
deriving DecidableEq

/-- json.dumps escaping for one character (quote, backslash and the
common control characters). -/
def json_escape_char (c : Char) : String :=
  if c = '"' then "\\\""
  else if c = '\\' then "\\\\"
  else if c = '\n' then "\\n"
  else if c = '\t' then "\\t"
  else if c = '\r' then "\\r"
  else String.mk [c]

/-- json.dumps of a string value. -/
def json_str (s : String) : String :=
  "\"" ++ String.join (s.toList.map json_escape_char) ++ "\""

/-- json.dumps of a nullable string value. -/
def json_opt_str : Option String → String
  | none => "null"
  | some s => json_str s

/-- json.dumps of dict(record) for a shows row, keys in SELECT order. -/
def json_of_show (s : ShowRow) : String :=
  "\x7b" ++ "\"id\": " ++ toString s.id ++
    ", \"search_title\": " ++ json_str s.search_title ++
    ", \"desired_format\": " ++ json_opt_str s.desired_format ++
    ", \"desired_folder\": " ++ json_opt_str s.desired_folder ++
    ", \"season\": " ++ toString s.season ++
    ", \"episode_offset\": " ++ toString s.episode_offset ++ "\x7d"

/-- json.dumps of dict(record) for a show_entry row, keys in SELECT order. -/
def json_of_entry (e : ShowEntry) : String :=
  "\x7b" ++ "\"id\": " ++ toString e.id ++
    ", \"episode\": " ++ toString e.episode ++
    ", \"current_state\": " ++ json_str e.current_state ++
    ", \"torrent_hash\": " ++ json_str e.torrent_hash ++ "\x7d"

/-- GET /api/shows/(show_id): fetchrow by id; a missing row is replaced
by the empty dict, and the dumped dict is returned as a 200 response. -/
def get_show_by_id (db : DB) (show_id : Int) : ApiResponse :=
  match db.shows.find? (fun s => s.id == show_id) with
  | none => ⟨"\x7b\x7d", 200⟩
  | some s => ⟨json_of_show s, 200⟩

/-- GET /api/shows/(show_id)/entries/(entry_id): fetchrow by show id and
entry id; a missing row is replaced by the empty dict, and the dumped
dict is returned as a 200 response. -/
def get_show_entry_by_entry_id (db : DB) (show_id : Int) (entry_id : Int) : ApiResponse :=
  match db.show_entry.find? (fun e => e.show_id == show_id && e.id == entry_id) with
  | none => ⟨"\x7b\x7d", 200⟩
  | some e => ⟨json_of_entry e, 200⟩

/-! ## Spec-side definitions for the rename refinement claim -/

/-- Modelled from the spec: the placeholder table of the Rename/Relocate
Engine, with season the show's season as a string and the canonical
episode the entry's episode plus the show's episode_offset as a
string. -/
def spec_placeholder (show_info : ShowRow) (entry : ShowEntry) (expression : String) : String :=
  let season := toString show_info.season
  let episode := toString (entry.episode + show_info.episode_offset)
  if expression = "n" then show_info.search_title
  else if expression = "s" then season
  else if expression = "e" then episode
  else if expression = "s00" then zfill season 2
  else if expression = "e00" then zfill episode 2
  else if expression = "s00e00" then "S" ++ zfill season 2 ++ "E" ++ zfill episode 2
  else if expression = "sxe" then season ++ "x" ++ zfill episode 2
  else expression

/-- Modelled from the spec: the new file name is the substituted
template plus the original file's extension, preserved exactly
including the leading separator. -/
def spec_new_name (show_info : ShowRow) (entry : ShowEntry) (fmt : String)
    (orig_suffix : String) : String :=
  re_sub (spec_placeholder show_info entry) fmt ++ orig_suffix

deriving instance DecidableEq for Except

/-! ## Concrete fixtures -/

/-- A tracked show: season 1, no episode offset, no custom format. -/
def show1 : ShowRow := ⟨1, "Test", none, none, 1, 0⟩

/-- A store with one tracked show and no entries. -/
def db1 : DB := ⟨[show1], []⟩

/-- A feed item for episode 1 of the tracked show. -/
def item1 : FeedItem := ⟨"Test 01", "http://b.example/ep1.torrent"⟩

/-- A feed handler with no optional hooks, recognizing every item as
episode 1 of the show named Test. -/
def desc1 : Descriptor := ⟨"http://b.example/rss", none, none, fun _ => "Test", fun _ => 1, none⟩

/-- A similarity scorer that rates every pair a perfect 100. -/
def scorer100 : String → String → Nat := fun _ _ => 100

/-- A magnet conversion that returns its argument. -/
def magnet_id : String → String := fun s => s

/-- The directory hard-coded in Downloader.get_file_path, as components. -/
def testDir : List String := ["C:", "Users", "Tyler", "Documents", "GitHub", "Tsundoku", "test"]

/-- A downloading entry for episode 5 of show 1. -/
def entry2 : ShowEntry := ⟨1, 1, 5, "abc123", "downloading"⟩

/-- A store with one show and one downloading entry. -/
def db2 : DB := ⟨[show1], [entry2]⟩

/-- A Deluge state knowing exactly the hash of entry2, reporting a save
path and display name for it. -/
def deluge2 : String → Option TorrentInfo :=
  fun h => if h = "abc123" then some ⟨"/downloads/", "x.mkv"⟩ else none

/-- A filesystem holding the hard-coded directory and the finished file. -/
def fs2 : FS := ⟨[testDir], [testDir ++ ["x.mkv"]]⟩

/-- The filesystem after the watcher renames the finished file. -/
def fs2renamed : FS := ⟨[testDir], [testDir ++ ["Test - S01E05.mkv"]]⟩

/-- A filesystem holding the hard-coded directory but no file yet. -/
def fs4 : FS := ⟨[testDir], []⟩

/-- The path of the finished file inside the hard-coded directory. -/
def path2 : FilePath := ⟨testDir ++ ["x.mkv"]⟩

/-- A show whose desired_format holds an unrecognized placeholder. -/
def show5 : ShowRow := ⟨1, "Test", some "{n} - {zzz}", none, 1, 0⟩

/-- A store pairing the unrecognized-placeholder show with entry2. -/
def db5 : DB := ⟨[show5], [entry2]⟩

/-- A show whose desired_format is the plain season-episode template. -/
def show6 : ShowRow := ⟨1, "Test", some "{s00e00}", none, 1, 0⟩

/-- A store pairing show6 with entry2. -/
def db6 : DB := ⟨[show6], [entry2]⟩

/-- A store with no shows and no entries. -/
def db_empty : DB := ⟨[], []⟩

/-- A feed handler identical to desc1 except for its URL, standing for
a distinct feed source. -/
def descA : Descriptor := ⟨"http://a.example/rss", none, none, fun _ => "Test", fun _ => 1, none⟩

/-- The feed the healthy source serves. -/
def feedB : Feed := ⟨[item1]⟩

/-- A fetch in which the first source fails and every other source
serves feedB. -/
def fetch8 : Descriptor → Except PollFault Feed :=
  fun d =>
    if d.url = "http://a.example/rss" then Except.error (PollFault.fetchFailure d.url)
    else Except.ok feedB

/-! ## Helper lemmas -/

/-- extractOne only ever returns an element of its choice list, paired
with that element's score. -/
theorem extractOne_mem_score (scorer : String → String → Nat) (query : String) :
    ∀ (l : List String) (t : String) (sc : Nat),
      extractOne scorer query l = some (t, sc) → t ∈ l ∧ sc = scorer query t := by
  intro l
  induction l with
  | nil => intro t sc h; simp [extractOne] at h
  | cons c cs ih =>
    intro t sc h
    rw [extractOne] at h
    cases hcs : extractOne scorer query cs with
    | none =>
      rw [hcs] at h
      cases h
      exact ⟨List.mem_cons_self c cs, rfl⟩
    | some p =>
      rw [hcs] at h
      by_cases hge : scorer query c ≥ p.2
      · simp only [hge, if_pos] at h
        cases h
        exact ⟨List.mem_cons_self c cs, rfl⟩
      · simp only [hge, if_neg, if_false] at h
        cases h
        obtain ⟨hm, hs⟩ := ih p.1 p.2 (by rw [hcs])
        exact ⟨List.mem_cons_of_mem c hm, hs⟩

/-! ## Claim theorems -/

/-- C1: contrary to the claim, a feed item that passes every step is
never handed to begin-acquisition.  check_item leaves the database
unchanged on every control path; on a concrete item that passes the
ignore predicate, extraction, the match and link resolution it only
prints the show name and episode, and the entry table stays empty,
whereas begin_handling, had it been called, would have created a row in
the downloading state. -/
theorem c1_check_item_initiates_no_download :
    (∀ scorer get_magnet d db item, (check_item scorer get_magnet d db item).1 = db) ∧
    check_item scorer100 magnet_id desc1 db1 item1 = (db1, ["Test 1"]) ∧
    (check_item scorer100 magnet_id desc1 db1 item1).1.show_entry = [] ∧
    (begin_handling (fun _ => "deadbeef") 1 db1 1 1 "magnet:x").show_entry =
      [⟨1, 1, 1, "deadbeef", "downloading"⟩] := by
  refine ⟨?_, by decide, by decide, by decide⟩
  intro scorer get_magnet d db item
  unfold check_item
  dsimp only
  split
  · rfl
  · split <;> rfl

/-- C2: contrary to the claim, a watcher cycle over a downloading entry
whose backing file exists performs the rename but never transitions the
entry to completed: the cycle returns the database unchanged, the sole
entry is still in the downloading state, and a second cycle re-queries
that same entry (changing nothing only because the old path no longer
exists after the rename). -/
theorem c2_watcher_never_completes_entry :
    check_show_entries deluge2 db2 fs2 = Except.ok (db2, fs2renamed) ∧
    db2.show_entry.map (fun e => e.current_state) = ["downloading"] ∧
    check_show_entries deluge2 db2 fs2renamed = Except.ok (db2, fs2renamed) := by
  exact ⟨by decide, by decide, by decide⟩

/-- C3: contrary to the claim, the matching step consults only the
shows table: its result is independent of both the show_entry table and
the episode argument, and against a store that already tracks episode 5
of the matched show in the downloading state it still accepts the
identical (show, episode) item instead of rejecting it. -/
theorem c3_match_step_ignores_tracked_entries :
    (∀ scorer shows entries entries2 name ep ep2,
      check_item_for_match scorer ⟨shows, entries⟩ name ep =
        check_item_for_match scorer ⟨shows, entries2⟩ name ep2) ∧
    check_item_for_match scorer100 db2 "Test" 5 = some "Test" := by
  exact ⟨fun _ _ _ _ _ _ _ => rfl, by decide⟩

/-- C4: contrary to the claim, the expected file path does not depend
on the save path the Torrent Client reports: get_file_path overwrites
its location argument with a hard-coded directory, so any two reported
save paths yield the same path, and the concrete reported location is
ignored; the skip half of the claim does hold: when the computed path
is not a regular file, the entry is left unchanged. -/
theorem c4_file_path_ignores_save_path :
    (∀ fs loc1 loc2 name, get_file_path fs loc1 name = get_file_path fs loc2 name) ∧
    get_file_path fs2 "/downloads/" "x.mkv" = Except.ok path2 ∧
    (∀ get_torrent db fs entry info,
      get_torrent entry.torrent_hash = some info →
      ∀ path, get_file_path fs info.save_path info.name = Except.ok path →
      fs.is_file path = false →
      check_show_entry get_torrent db fs entry = Except.ok (db, fs)) := by
  refine ⟨fun _ _ _ _ => rfl, by decide, ?_⟩
  intro get_torrent db fs entry info hinfo path hpath hfile
  simp only [check_show_entry, hinfo, hpath, hfile]
  simp

/-- Witness for the skip clause of the C4 theorem: an in-progress entry
on a filesystem where the file is absent is returned unchanged. -/
theorem c4_file_path_ignores_save_path_witness :
    check_show_entry deluge2 db2 fs4 entry2 = Except.ok (db2, fs4) :=
  c4_file_path_ignores_save_path.2.2 deluge2 db2 fs4 entry2 ⟨"/downloads/", "x.mkv"⟩
    (by decide) path2 (by decide) (by decide)

/-- C5 counterexample: renaming with the format string of the claim
does not leave the unrecognized placeholder verbatim: the braces are
stripped, the output file is named Test - zzz.mkv, and the bracketed
placeholder text does not occur in that name while the bare inner word
does. -/
theorem c5_braces_not_preserved :
    handle_rename db5 fs2 entry2 path2 =
      Except.ok (⟨[testDir], [testDir ++ ["Test - zzz.mkv"]]⟩, ⟨testDir ++ ["Test - zzz.mkv"]⟩) ∧
    hasSubstring "{zzz}" "Test - zzz.mkv" = false ∧
    hasSubstring "zzz" "Test - zzz.mkv" = true := by
  exact ⟨by decide, by decide, by decide⟩

/-- C5 amended: template substitution replaces an unrecognized
placeholder by its inner word with the braces stripped, and is
idempotent on the stripped text: the claim's format substitutes to the
search title followed by the bare word zzz, the lone placeholder
substitutes to its bare word, and the brace-free result re-substitutes
to itself. -/
theorem c5_unrecognized_stripped (show_info : ShowRow) (entry : ShowEntry) :
    re_sub (formatting_re show_info entry) "{n} - {zzz}" =
      show_info.search_title ++ " - zzz" ∧
    re_sub (formatting_re show_info entry) "{zzz}" = "zzz" ∧
    re_sub (formatting_re show_info entry) "zzz" = "zzz" := by
  exact ⟨rfl, rfl, rfl⟩

/-- C6: when the owning show row exists, handle_rename succeeds and the
renamed file sits in the original directory under the name the spec
formula gives: the substituted template - the show's desired_format
when it is set and nonempty, the default template when it is unset -
with season the show's season and canonical episode the entry's episode
plus the show's episode_offset, followed by the original file's
extension preserved exactly, leading separator included. -/
theorem c6_rename_formula (db : DB) (fs : FS) (entry : ShowEntry) (path : FilePath)
    (show_info : ShowRow)
    (h : db.shows.find? (fun s => s.id == entry.show_id) = some show_info) :
    (show_info.desired_format = none →
      handle_rename db fs entry path =
        Except.ok
          (os_rename fs path
            (with_name path (spec_new_name show_info entry "{n} - {s00e00}" (pathSuffix path))),
           with_name path (spec_new_name show_info entry "{n} - {s00e00}" (pathSuffix path)))) ∧
    (∀ f, show_info.desired_format = some f → f ≠ "" →
      handle_rename db fs entry path =
        Except.ok
          (os_rename fs path (with_name path (spec_new_name show_info entry f (pathSuffix path))),
           with_name path (spec_new_name show_info entry f (pathSuffix path)))) := by
  constructor
  · intro hdf
    simp only [handle_rename, h, hdf]
    rfl
  · intro f hdf hne
    simp only [handle_rename, h, hdf, if_pos hne]
    rfl

/-- Witness for the C6 theorem on a concrete store whose show carries a
set, nonempty desired_format. -/
theorem c6_rename_formula_witness :
    handle_rename db6 fs2 entry2 path2 =
      Except.ok
        (os_rename fs2 path2 (with_name path2 (spec_new_name show6 entry2 "{s00e00}" (pathSuffix path2))),
         with_name path2 (spec_new_name show6 entry2 "{s00e00}" (pathSuffix path2))) :=
  (c6_rename_formula db6 fs2 entry2 path2 show6 (by decide)).2 "{s00e00}" rfl (by decide)

/-- C7: the match step returns a title drawn from the shows table whose
similarity score against the candidate is at least the fixed threshold
of 90, or no match at all; when the table holds no shows the result is
always no match. -/
theorem c7_resolver_membership_threshold (scorer : String → String → Nat) (db : DB)
    (show_name : String) (episode : Int) :
    (db.shows = [] → check_item_for_match scorer db show_name episode = none) ∧
    (∀ t, check_item_for_match scorer db show_name episode = some t →
      t ∈ db.shows.map (fun s => s.search_title) ∧ 90 ≤ scorer show_name t) := by
  constructor
  · intro h
    simp [check_item_for_match, h]
  · intro t h
    unfold check_item_for_match at h
    by_cases hl : db.shows.map (fun s => s.search_title) = []
    · simp [hl] at h
    · simp only [hl, if_neg, if_false] at h
      cases hm : extractOne scorer show_name (db.shows.map (fun s => s.search_title)) with
      | none => rw [hm] at h; cases h
      | some m =>
        rw [hm] at h
        by_cases hs : m.2 ≥ 90
        · simp only [hs, if_pos] at h
          cases h
          obtain ⟨hmem, hsc⟩ := extractOne_mem_score scorer show_name _ m.1 m.2 (by rw [hm])
          exact ⟨hmem, by rw [← hsc]; exact hs⟩
        · simp only [hs, if_neg, if_false] at h
          cases h

/-- Witness for the C7 theorem: with a constant scorer of 95 and one
tracked show, the returned title is in the table and scores above the
threshold. -/
theorem c7_resolver_membership_threshold_witness :
    "Test" ∈ db1.shows.map (fun s => s.search_title) ∧
    90 ≤ scorer100 "Test Show" "Test" :=
  (c7_resolver_membership_threshold scorer100 db1 "Test Show" 0).2 "Test" (by decide)

/-- C8: contrary to the claim, one source's fetch failure aborts the
whole poll cycle: with two configured handlers whose first fetch
faults, the cycle propagates the fault and the second handler's item is
never processed, although the second handler alone does process it; the
loop body of Poller.start wraps the fetch and the check in no exception
handling. -/
theorem c8_fetch_fault_aborts_cycle :
    poll_cycle fetch8 scorer100 magnet_id [descA, desc1] db1 [] =
      Except.error (PollFault.fetchFailure "http://a.example/rss") ∧
    poll_cycle fetch8 scorer100 magnet_id [desc1] db1 [] = Except.ok (db1, ["Test 1"]) := by
  exact ⟨rfl, rfl⟩

/-- C9: an entry in the downloading state whose torrent hash Deluge no
longer recognizes makes the watcher raise the distinct EntryNotInDeluge
fault whose message names that entry's show id and episode, and the
check never returns normally for it - the unknown handle is never
treated as a not-yet-complete download. -/
theorem c9_unknown_handle_distinct_fault (get_torrent : String → Option TorrentInfo)
    (db : DB) (fs : FS) (entry : ShowEntry)
    (h : get_torrent entry.torrent_hash = none) :
    check_show_entry get_torrent db fs entry =
      Except.error (DownloadError.EntryNotInDeluge
        ("Show Entry with ID " ++ toString entry.show_id ++ " Episode " ++
          toString entry.episode ++ " missing from Deluge.")) ∧
    ∀ result, check_show_entry get_torrent db fs entry ≠ Except.ok result := by
  have hmain : check_show_entry get_torrent db fs entry =
      Except.error (DownloadError.EntryNotInDeluge
        ("Show Entry with ID " ++ toString entry.show_id ++ " Episode " ++
          toString entry.episode ++ " missing from Deluge.")) := by
    unfold check_show_entry
    rw [h]
  refine ⟨hmain, ?_⟩
  intro result hok
  rw [hmain] at hok
  exact Except.noConfusion hok

/-- Witness for the C9 theorem: a Deluge state that knows no hash makes
the check of a concrete downloading entry raise the fault naming that
entry. -/
theorem c9_unknown_handle_distinct_fault_witness :
    check_show_entry (fun _ => none) db2 fs2 entry2 =
      Except.error (DownloadError.EntryNotInDeluge
        ("Show Entry with ID " ++ toString entry2.show_id ++ " Episode " ++
          toString entry2.episode ++ " missing from Deluge.")) ∧
    ∀ result, check_show_entry (fun _ => none) db2 fs2 entry2 ≠ Except.ok result :=
  c9_unknown_handle_distinct_fault (fun _ => none) db2 fs2 entry2 rfl

/-- C10: the single-show and single-entry GET endpoints answer a lookup
of an id absent from the store with the empty JSON object and the
success status 200, not with an error response. -/
theorem c10_missing_rows_empty_object (db : DB) (show_id entry_id : Int)
    (h1 : ∀ s ∈ db.shows, s.id ≠ show_id)
    (h2 : ∀ e ∈ db.show_entry, ¬(e.show_id = show_id ∧ e.id = entry_id)) :
    get_show_by_id db show_id = ⟨"\x7b\x7d", 200⟩ ∧
    get_show_entry_by_entry_id db show_id entry_id = ⟨"\x7b\x7d", 200⟩ := by
  have hf1 : db.shows.find? (fun s => s.id == show_id) = none := by
    rw [List.find?_eq_none]
    intro s hs
    simpa using h1 s hs
  have hf2 : db.show_entry.find? (fun e => e.show_id == show_id && e.id == entry_id) = none := by
    rw [List.find?_eq_none]
    intro e he
    have := h2 e he
    simp only [Bool.and_eq_true, beq_iff_eq]
    tauto
  constructor
  · unfold get_show_by_id
    rw [hf1]
  · unfold get_show_entry_by_entry_id
    rw [hf2]

/-- Witness for the C10 theorem against the empty store. -/
theorem c10_missing_rows_empty_object_witness :
    get_show_by_id db_empty 1 = ⟨"\x7b\x7d", 200⟩ ∧
    get_show_entry_by_entry_id db_empty 1 2 = ⟨"\x7b\x7d", 200⟩ :=
  c10_missing_rows_empty_object db_empty 1 2 (by simp [db_empty]) (by simp [db_empty])

end Tsundoku
